import Mathlib

/-!
Verification of `ProfileCheckInterpolation::runCheck` (ufo profile QC,
interpolation consistency check).

The C++ source is embedded shallowly: machine floats become exact rationals
(`ℚ`), `std::vector` becomes `List`, and the per-level loop becomes a fold of
an explicit step function over the list of standard-level positions.  The
standard-level classification (`calcStdLevels`, class `ProfileStandardLevels`)
and the configuration/flag constants live outside the given sources, so they
are taken as inputs (resp. modelled from the spec) via their documented output
contract.
-/

namespace UfoInterp

/-- Modelled from the spec: the "surface level" QC flag bit
(`ufo::FlagsProfile::SurfaceLevelFlag`; the enum is not among the given
sources).  Only the facts that it is a single bit distinct from
`InterpolationFlag` matter to the development. -/
def SurfaceLevelFlag : ℕ := 1

/-- Modelled from the spec: the "interpolation failed" QC flag bit
(`ufo::FlagsProfile::InterpolationFlag`; the enum is not among the given
sources).  A single bit distinct from `SurfaceLevelFlag`. -/
def InterpolationFlag : ℕ := 2

/-- Modelled from the spec: the missing-value sentinel used for `tInterp_`
(`missingValueFloat`; its numeric value is not among the given sources and is
immaterial). -/
def missingValueFloat : ℚ := -1073741824

/-- Configuration options read by `runCheck`
(`ProfileConsistencyCheckParameters`; the parameter class is not among the
given sources, so the fields are modelled from the spec: initial big-gap
default, the (pressure-band, gap) table, the tolerance, the relaxation
threshold pressure and the relaxation factor). -/
structure ICheckOptions where
  ICheck_BigGapInit : ℚ
  StandardLevels : List ℤ
  BigGaps : List ℚ
  ICheck_TInterpTol : ℚ
  ICheck_TolRelaxPThresh : ℚ
  ICheck_TolRelax : ℚ
deriving DecidableEq

/-- Output contract of the external standard-level classifier
(`calcStdLevels` of `ProfileStandardLevels`, not among the given sources;
consumed as-is per the spec): counts of standard and significant levels,
the standard-level index list, the bracketing significant-level indices
(`-1` = none) and the log-pressure of every level. -/
structure StdLevelsData where
  NumStd : ℕ
  NumSig : ℕ
  StdLev : List ℕ
  SigBelow : List ℤ
  SigAbove : List ℤ
  LogP : List ℚ
deriving DecidableEq

/-- Mutable state threaded through the interpolation decision loop:
the QC flag words, the three error counters (`NumAnyErrors[0]`,
`NumInterpErrors[0]` and the local tally `NumErrors`), the per-level error
counts and the interpolated values. -/
structure LoopState where
  tFlags : List ℕ
  NumAnyErrors : ℤ
  NumInterpErrors : ℤ
  NumErrors : ℤ
  LevErrors : List ℤ
  tInterp : List ℚ
deriving DecidableEq

/-- Floor of a rational, computable in the kernel (`x.num / x.den` with
integer division; exact for the nonnegative arguments it is applied to). -/
def qfloor (x : ℚ) : ℤ := x.num / x.den

/-- `std::round`: round to nearest integer, ties away from zero. -/
def roundF (x : ℚ) : ℤ := if x < 0 then -qfloor (-x + 1/2) else qfloor (x + 1/2)

/-- The `BigGap` selection scan of `runCheck` (source lines 80-86): walk the
configured band table; at the first band whose threshold is `≤` the rounded
pressure take that band's gap converted from hPa to Pa; if no band matches
keep the initial default. -/
def bigGapLookup : List ℤ → List ℚ → ℤ → ℚ → ℚ
  | [], _, _, dflt => dflt
  | t :: ts, gaps, ip, dflt =>
      if t ≤ ip then gaps.headD 0 * 100 else bigGapLookup ts gaps.tail ip dflt

/-- `tFlags[i] |= InterpolationFlag`. -/
def orFlagAt (fl : List ℕ) (i : ℕ) : List ℕ :=
  fl.set i (fl.getD i 0 ||| InterpolationFlag)

/-- `LevErrors_[i]++`. -/
def incErrAt (le : List ℤ) (i : ℕ) : List ℤ :=
  le.set i (le.getD i 0 + 1)

/-- One iteration of the standard-level loop of `runCheck` (source lines
69-139), at loop position `jlevstd`.  Direct translation: surface-flag skip,
`BigGap` selection, sparse-profile guard, bracket-existence guard,
gap/degeneracy guard, log-pressure interpolation, tolerance test and the
failure bookkeeping. -/
def stepLoop (opts : ICheckOptions) (cls : StdLevelsData)
    (pressures tObsFinal : List ℚ) (s : LoopState) (jlevstd : ℕ) : LoopState :=
  let jlev := cls.StdLev.getD jlevstd 0
  if s.tFlags.getD jlev 0 &&& SurfaceLevelFlag ≠ 0 then s
  else
    let SigB := cls.SigBelow.getD jlevstd 0
    let SigA := cls.SigAbove.getD jlevstd 0
    let PStd := pressures.getD jlev 0
    let IPStd := roundF (PStd * (1/100))
    let BigGap := bigGapLookup opts.StandardLevels opts.BigGaps IPStd
      opts.ICheck_BigGapInit
    if cls.NumSig < max 3 (cls.NumStd / 2) then s
    else if SigB = -1 ∨ SigA = -1 then s
    else
      let sb := SigB.toNat
      let sa := SigA.toNat
      if pressures.getD sb 0 - PStd > BigGap ∨
         PStd - pressures.getD sa 0 > BigGap ∨
         cls.LogP.getD sb 0 = cls.LogP.getD sa 0 then s
      else
        let Ratio := (cls.LogP.getD jlev 0 - cls.LogP.getD sb 0) /
          (cls.LogP.getD sa 0 - cls.LogP.getD sb 0)
        let tI := tObsFinal.getD sb 0 +
          (tObsFinal.getD sa 0 - tObsFinal.getD sb 0) * Ratio
        let s1 : LoopState := { s with tInterp := s.tInterp.set jlev tI }
        let TolRelax : ℚ :=
          if PStd < opts.ICheck_TolRelaxPThresh then opts.ICheck_TolRelax else 1
        if |tObsFinal.getD jlev 0 - tI| > opts.ICheck_TInterpTol * TolRelax then
          { s1 with
            NumAnyErrors := s1.NumAnyErrors + 1
            NumInterpErrors := s1.NumInterpErrors + 1
            NumErrors := s1.NumErrors + 1
            tFlags := orFlagAt (orFlagAt (orFlagAt s1.tFlags jlev) SigB.toNat)
              SigA.toNat
            LevErrors := incErrAt (incErrAt (incErrAt s1.LevErrors jlev)
              SigB.toNat) SigA.toNat }
        else s1

/-- The standard-level loop of `runCheck`, generalized to an arbitrary order
of loop positions (the source iterates `idxs = [0, ..., NumStd-1]`). -/
def loopOver (opts : ICheckOptions) (cls : StdLevelsData)
    (pressures tObsFinal : List ℚ) (s : LoopState) (idxs : List ℕ) : LoopState :=
  idxs.foldl (stepLoop opts cls pressures tObsFinal) s

/-- Modelled from the spec: `ProfileCheckBase::correctVector` (not among the
given sources): elementwise sum of the raw observation and its bias
correction. -/
def correctVector (tObs tObsCorrection : List ℚ) : List ℚ :=
  List.zipWith (· + ·) tObs tObsCorrection

/-- Which of the two input-validity warnings `runCheck` emitted. -/
inductive CheckWarning where
  | emptyVectors
  | sizeMismatch
deriving DecidableEq

/-- The profile-batch error counters read and written by `runCheck`
(`NumAnyErrors[0]`, `NumInterpErrors[0]`, `NumInterpErrObs[0]`). -/
structure Counters where
  NumAnyErrors : ℤ
  NumInterpErrors : ℤ
  NumInterpErrObs : ℤ
deriving DecidableEq

/-- Everything observable of one `runCheck` invocation: the warning (if the
input-validity check fired), the final flag words and counters, and the
freshly computed result arrays (`none` when the check aborted before
assigning them). -/
structure RunResult where
  warning : Option CheckWarning
  tFlags : List ℕ
  counters : Counters
  LevErrors : Option (List ℤ)
  tInterp : Option (List ℚ)
deriving DecidableEq

/-- Modelled from the spec: `oops::anyVectorEmpty` on the five fetched
vectors (the helper is not among the given sources): true iff at least one
is empty. -/
def anyVectorEmpty (pressures tObs tBkg : List ℚ) (tFlags : List ℕ)
    (tObsCorrection : List ℚ) : Bool :=
  pressures.isEmpty || tObs.isEmpty || tBkg.isEmpty || tFlags.isEmpty ||
    tObsCorrection.isEmpty

/-- Modelled from the spec: `oops::allVectorsSameSize` on the five fetched
vectors (the helper is not among the given sources): true iff all five have
equal length. -/
def allVectorsSameSize (pressures tObs tBkg : List ℚ) (tFlags : List ℕ)
    (tObsCorrection : List ℚ) : Bool :=
  decide (tObs.length = pressures.length) &&
    decide (tBkg.length = pressures.length) &&
    decide (tFlags.length = pressures.length) &&
    decide (tObsCorrection.length = pressures.length)

/-- `ProfileCheckInterpolation::runCheck` (source lines 25-141).  Inputs: the
options, `numLevelsToCheck`, the classification produced by the external
`calcStdLevels`, the five per-profile vectors fetched from the data handler
and the incoming counters.  Validity guards, bias correction, the
standard-level loop in source order, and the once-per-profile
`NumInterpErrObs` increment. -/
def runCheck (opts : ICheckOptions) (numLevelsToCheck : ℕ)
    (cls : StdLevelsData) (pressures tObs tBkg : List ℚ) (tFlags : List ℕ)
    (tObsCorrection : List ℚ) (c : Counters) : RunResult :=
  if anyVectorEmpty pressures tObs tBkg tFlags tObsCorrection then
    { warning := some .emptyVectors, tFlags := tFlags, counters := c,
      LevErrors := none, tInterp := none }
  else if ¬ allVectorsSameSize pressures tObs tBkg tFlags tObsCorrection then
    { warning := some .sizeMismatch, tFlags := tFlags, counters := c,
      LevErrors := none, tInterp := none }
  else
    let tObsFinal := correctVector tObs tObsCorrection
    let s0 : LoopState :=
      { tFlags := tFlags
        NumAnyErrors := c.NumAnyErrors
        NumInterpErrors := c.NumInterpErrors
        NumErrors := 0
        LevErrors := List.replicate numLevelsToCheck (-1)
        tInterp := List.replicate numLevelsToCheck missingValueFloat }
    let s1 := loopOver opts cls pressures tObsFinal s0 (List.range cls.NumStd)
    { warning := none
      tFlags := s1.tFlags
      counters :=
        { NumAnyErrors := s1.NumAnyErrors
          NumInterpErrors := s1.NumInterpErrors
          NumInterpErrObs :=
            if s1.NumErrors > 0 then c.NumInterpErrObs + 1
            else c.NumInterpErrObs }
      LevErrors := some s1.LevErrors
      tInterp := some s1.tInterp }

/-! ### Named projections of the loop's per-level quantities -/

/-- The profile index of the `j`-th standard level (`jlev = StdLev_[jlevstd]`). -/
def jlevOf (cls : StdLevelsData) (j : ℕ) : ℕ := cls.StdLev.getD j 0

/-- `SigB = SigBelow_[jlevstd]`. -/
def sigBOf (cls : StdLevelsData) (j : ℕ) : ℤ := cls.SigBelow.getD j 0

/-- `SigA = SigAbove_[jlevstd]`. -/
def sigAOf (cls : StdLevelsData) (j : ℕ) : ℤ := cls.SigAbove.getD j 0

/-- The lower bracket as a list index. -/
def sbOf (cls : StdLevelsData) (j : ℕ) : ℕ := (sigBOf cls j).toNat

/-- The upper bracket as a list index. -/
def saOf (cls : StdLevelsData) (j : ℕ) : ℕ := (sigAOf cls j).toNat

/-- The `BigGap` value the loop body selects for the `j`-th standard level. -/
def bigGapOf (opts : ICheckOptions) (cls : StdLevelsData) (pressures : List ℚ)
    (j : ℕ) : ℚ :=
  bigGapLookup opts.StandardLevels opts.BigGaps
    (roundF (pressures.getD (jlevOf cls j) 0 * (1/100))) opts.ICheck_BigGapInit

/-- The surface-level exclusion test of the loop body: the `j`-th standard
level's flag word has the surface bit set. -/
def surfP (cls : StdLevelsData) (fl : List ℕ) (j : ℕ) : Prop :=
  fl.getD (jlevOf cls j) 0 &&& SurfaceLevelFlag ≠ 0

/-- The disjunction of the four silent skip guards of the loop body
(sparse profile, missing bracket, big gap, degenerate log-pressure). -/
def skipGuards (opts : ICheckOptions) (cls : StdLevelsData)
    (pressures : List ℚ) (j : ℕ) : Prop :=
  cls.NumSig < max 3 (cls.NumStd / 2) ∨
  sigBOf cls j = -1 ∨ sigAOf cls j = -1 ∨
  pressures.getD (sbOf cls j) 0 - pressures.getD (jlevOf cls j) 0 >
    bigGapOf opts cls pressures j ∨
  pressures.getD (jlevOf cls j) 0 - pressures.getD (saOf cls j) 0 >
    bigGapOf opts cls pressures j ∨
  cls.LogP.getD (sbOf cls j) 0 = cls.LogP.getD (saOf cls j) 0

/-- A standard level reaches the interpolation computation iff no skip guard
fires. -/
def evaluable (opts : ICheckOptions) (cls : StdLevelsData)
    (pressures : List ℚ) (j : ℕ) : Prop :=
  ¬ skipGuards opts cls pressures j

/-- The interpolated value `tObsFinal[SigB] + (tObsFinal[SigA] -
tObsFinal[SigB]) * Ratio` computed for the `j`-th standard level. -/
def interpValOf (cls : StdLevelsData) (tObsFinal : List ℚ) (j : ℕ) : ℚ :=
  tObsFinal.getD (sbOf cls j) 0 +
    (tObsFinal.getD (saOf cls j) 0 - tObsFinal.getD (sbOf cls j) 0) *
      ((cls.LogP.getD (jlevOf cls j) 0 - cls.LogP.getD (sbOf cls j) 0) /
        (cls.LogP.getD (saOf cls j) 0 - cls.LogP.getD (sbOf cls j) 0))

/-- The tolerance-relaxation factor for the `j`-th standard level. -/
def tolRelaxOf (opts : ICheckOptions) (cls : StdLevelsData)
    (pressures : List ℚ) (j : ℕ) : ℚ :=
  if pressures.getD (jlevOf cls j) 0 < opts.ICheck_TolRelaxPThresh then
    opts.ICheck_TolRelax
  else 1

/-- The tolerance test of the loop body fails for the `j`-th standard
level. -/
def tolFails (opts : ICheckOptions) (cls : StdLevelsData)
    (pressures tObsFinal : List ℚ) (j : ℕ) : Prop :=
  |tObsFinal.getD (jlevOf cls j) 0 - interpValOf cls tObsFinal j| >
    opts.ICheck_TInterpTol * tolRelaxOf opts cls pressures j

instance (cls : StdLevelsData) (fl : List ℕ) (j : ℕ) :
    Decidable (surfP cls fl j) := by
  unfold surfP; infer_instance

instance (opts : ICheckOptions) (cls : StdLevelsData) (pressures : List ℚ)
    (j : ℕ) : Decidable (skipGuards opts cls pressures j) := by
  unfold skipGuards; infer_instance

instance (opts : ICheckOptions) (cls : StdLevelsData) (pressures : List ℚ)
    (j : ℕ) : Decidable (evaluable opts cls pressures j) := by
  unfold evaluable; infer_instance

instance (opts : ICheckOptions) (cls : StdLevelsData)
    (pressures tObsFinal : List ℚ) (j : ℕ) :
    Decidable (tolFails opts cls pressures tObsFinal j) := by
  unfold tolFails; infer_instance

/-- OR the interpolation-failed bit into the flag words of the `j`-th
standard level and its two brackets, in source order. -/
def orTriple (cls : StdLevelsData) (fl : List ℕ) (j : ℕ) : List ℕ :=
  orFlagAt (orFlagAt (orFlagAt fl (jlevOf cls j)) (sbOf cls j)) (saOf cls j)

/-- Increment the per-level error counts of the `j`-th standard level and its
two brackets, in source order. -/
def incTriple (cls : StdLevelsData) (le : List ℤ) (j : ℕ) : List ℤ :=
  incErrAt (incErrAt (incErrAt le (jlevOf cls j)) (sbOf cls j)) (saOf cls j)

/-- The effect of the loop body on the state once all guards have been
passed: write the interpolated value, and on tolerance failure bump the three
counters, OR the flag bits and bump the per-level error counts. -/
def actOn (opts : ICheckOptions) (cls : StdLevelsData)
    (pressures tObsFinal : List ℚ) (s : LoopState) (j : ℕ) : LoopState :=
  { tFlags :=
      if tolFails opts cls pressures tObsFinal j then orTriple cls s.tFlags j
      else s.tFlags
    NumAnyErrors := s.NumAnyErrors +
      (if tolFails opts cls pressures tObsFinal j then 1 else 0)
    NumInterpErrors := s.NumInterpErrors +
      (if tolFails opts cls pressures tObsFinal j then 1 else 0)
    NumErrors := s.NumErrors +
      (if tolFails opts cls pressures tObsFinal j then 1 else 0)
    LevErrors :=
      if tolFails opts cls pressures tObsFinal j then incTriple cls s.LevErrors j
      else s.LevErrors
    tInterp := s.tInterp.set (jlevOf cls j) (interpValOf cls tObsFinal j) }

/-! ### Characterization of one loop iteration -/

theorem stepLoop_eq_self_of_surf (opts : ICheckOptions) (cls : StdLevelsData)
    (pressures tObsFinal : List ℚ) (s : LoopState) (j : ℕ)
    (hs : surfP cls s.tFlags j) :
    stepLoop opts cls pressures tObsFinal s j = s := by
  simp only [surfP, jlevOf] at hs
  simp only [stepLoop]
  rw [if_pos hs]

theorem stepLoop_eq_self_of_skip (opts : ICheckOptions) (cls : StdLevelsData)
    (pressures tObsFinal : List ℚ) (s : LoopState) (j : ℕ)
    (hg : skipGuards opts cls pressures j) :
    stepLoop opts cls pressures tObsFinal s j = s := by
  simp only [skipGuards, sigBOf, sigAOf, sbOf, saOf, bigGapOf, jlevOf] at hg
  simp only [stepLoop]
  split_ifs with hsurf hnum hbr hgap htol <;> try rfl
  all_goals
    rcases hg with h | h | h | h | h | h <;>
      first
        | exact absurd h hnum
        | exact absurd (Or.inl h) hbr
        | exact absurd (Or.inr h) hbr
        | exact absurd (Or.inl h) hgap
        | exact absurd (Or.inr (Or.inl h)) hgap
        | exact absurd (Or.inr (Or.inr h)) hgap

theorem stepLoop_eq_act (opts : ICheckOptions) (cls : StdLevelsData)
    (pressures tObsFinal : List ℚ) (s : LoopState) (j : ℕ)
    (hs : ¬ surfP cls s.tFlags j)
    (he : evaluable opts cls pressures j) :
    stepLoop opts cls pressures tObsFinal s j =
      actOn opts cls pressures tObsFinal s j := by
  simp only [surfP, jlevOf] at hs
  simp only [evaluable, skipGuards, not_or, sigBOf, sigAOf, sbOf, saOf,
    bigGapOf, jlevOf] at he
  obtain ⟨h1, h2, h3, h4, h5, h6⟩ := he
  simp only [stepLoop]
  rw [if_neg hs, if_neg h1, if_neg (by rw [not_or]; exact ⟨h2, h3⟩),
    if_neg (by rw [not_or, not_or]; exact ⟨h4, h5, h6⟩)]
  by_cases hf : tolFails opts cls pressures tObsFinal j
  · have hf' := hf
    simp only [tolFails, interpValOf, tolRelaxOf, jlevOf, sbOf, saOf, sigBOf,
      sigAOf] at hf'
    rw [if_pos hf']
    simp only [actOn, orTriple, incTriple, interpValOf, jlevOf, sbOf, saOf,
      sigBOf, sigAOf, if_pos hf]
  · have hf' := hf
    simp only [tolFails, interpValOf, tolRelaxOf, jlevOf, sbOf, saOf, sigBOf,
      sigAOf] at hf'
    rw [if_neg hf']
    simp only [actOn, orTriple, incTriple, interpValOf, jlevOf, sbOf, saOf,
      sigBOf, sigAOf, if_neg hf, add_zero]

/-! ### Algebra of the single-index updates -/

theorem getD_set_ne {α : Type} (l : List α) (i k : ℕ) (v d : α) (h : i ≠ k) :
    (l.set i v).getD k d = l.getD k d := by
  simp only [List.getD_eq_getElem?_getD, List.getElem?_set_ne h]

theorem getD_set_self {α : Type} (l : List α) (i : ℕ) (v d : α)
    (h : i < l.length) : (l.set i v).getD i d = v := by
  simp only [List.getD_eq_getElem?_getD, List.getElem?_set_self h,
    Option.getD_some]

theorem orFlagAt_length (fl : List ℕ) (i : ℕ) :
    (orFlagAt fl i).length = fl.length := by
  simp [orFlagAt]

theorem incErrAt_length (le : List ℤ) (i : ℕ) :
    (incErrAt le i).length = le.length := by
  simp [incErrAt]

theorem getD_orFlagAt_ne (fl : List ℕ) (i k : ℕ) (h : i ≠ k) :
    (orFlagAt fl i).getD k 0 = fl.getD k 0 :=
  getD_set_ne fl i k _ 0 h

theorem getD_incErrAt_ne (le : List ℤ) (i k : ℕ) (h : i ≠ k) :
    (incErrAt le i).getD k 0 = le.getD k 0 :=
  getD_set_ne le i k _ 0 h

theorem getD_orFlagAt_self (fl : List ℕ) (i : ℕ) (h : i < fl.length) :
    (orFlagAt fl i).getD i 0 = fl.getD i 0 ||| InterpolationFlag :=
  getD_set_self fl i _ 0 h

theorem getD_incErrAt_self (le : List ℤ) (i : ℕ) (h : i < le.length) :
    (incErrAt le i).getD i 0 = le.getD i 0 + 1 :=
  getD_set_self le i _ 0 h

theorem orFlagAt_comm (fl : List ℕ) (i k : ℕ) :
    orFlagAt (orFlagAt fl i) k = orFlagAt (orFlagAt fl k) i := by
  rcases eq_or_ne i k with rfl | h
  · rfl
  · simp only [orFlagAt, getD_set_ne _ _ _ _ _ h, getD_set_ne _ _ _ _ _ h.symm]
    exact List.set_comm _ _ _ h

theorem incErrAt_comm (le : List ℤ) (i k : ℕ) :
    incErrAt (incErrAt le i) k = incErrAt (incErrAt le k) i := by
  rcases eq_or_ne i k with rfl | h
  · rfl
  · simp only [incErrAt, getD_set_ne _ _ _ _ _ h, getD_set_ne _ _ _ _ _ h.symm]
    exact List.set_comm _ _ _ h

theorem nat_lor_lor_self (x y : ℕ) : x ||| y ||| y = x ||| y := by
  apply Nat.eq_of_testBit_eq
  intro b
  simp only [Nat.testBit_lor, Bool.or_assoc, Bool.or_self]

theorem orFlagAt_idem (fl : List ℕ) (i : ℕ) :
    orFlagAt (orFlagAt fl i) i = orFlagAt fl i := by
  by_cases h : i < fl.length
  · simp only [orFlagAt, getD_set_self fl i _ 0 h, List.set_set,
      nat_lor_lor_self]
  · have hle : fl.length ≤ i := le_of_not_lt h
    simp only [orFlagAt, List.set_eq_of_length_le hle]

theorem getD_orFlagAt_and_surf (fl : List ℕ) (k i : ℕ) :
    (orFlagAt fl k).getD i 0 &&& SurfaceLevelFlag =
      fl.getD i 0 &&& SurfaceLevelFlag := by
  rcases eq_or_ne k i with rfl | h
  · by_cases hk : k < fl.length
    · rw [getD_orFlagAt_self fl k hk, Nat.and_distrib_right]
      norm_num [InterpolationFlag, SurfaceLevelFlag]
    · have hle : fl.length ≤ k := le_of_not_lt hk
      simp only [orFlagAt, List.set_eq_of_length_le hle]
  · rw [getD_orFlagAt_ne fl k i h]

theorem getD_orFlagAt_cases (fl : List ℕ) (k i : ℕ) :
    (orFlagAt fl k).getD i 0 = fl.getD i 0 ∨
      (orFlagAt fl k).getD i 0 = fl.getD i 0 ||| InterpolationFlag := by
  rcases eq_or_ne k i with rfl | h
  · by_cases hk : k < fl.length
    · exact Or.inr (getD_orFlagAt_self fl k hk)
    · have hle : fl.length ≤ k := le_of_not_lt hk
      simp only [orFlagAt, List.set_eq_of_length_le hle]
      simp
  · exact Or.inl (getD_orFlagAt_ne fl k i h)

/-! ### Generic fold-of-updates combinators -/

theorem foldl_upd_comm {α : Type} (f : α → ℕ → α)
    (hf : ∀ x i k, f (f x i) k = f (f x k) i) (A : List ℕ) :
    ∀ (x : α) (i : ℕ), f (A.foldl f x) i = A.foldl f (f x i) := by
  induction A with
  | nil => intro x i; rfl
  | cons a A ih =>
      intro x i
      simp only [List.foldl_cons]
      rw [ih (f x a) i, hf]

theorem foldl_upd_swap {α : Type} (f : α → ℕ → α)
    (hf : ∀ x i k, f (f x i) k = f (f x k) i) (A B : List ℕ) :
    ∀ x : α, B.foldl f (A.foldl f x) = A.foldl f (B.foldl f x) := by
  induction B with
  | nil => intro x; rfl
  | cons b B ih =>
      intro x
      simp only [List.foldl_cons]
      rw [foldl_upd_comm f hf A x b, ih (f x b)]

theorem foldl_upd_idem {α : Type} (f : α → ℕ → α)
    (hf : ∀ x i k, f (f x i) k = f (f x k) i)
    (hid : ∀ x i, f (f x i) i = f x i) (A : List ℕ) :
    ∀ x : α, A.foldl f (A.foldl f x) = A.foldl f x := by
  induction A with
  | nil => intro x; rfl
  | cons a A ih =>
      intro x
      simp only [List.foldl_cons]
      rw [foldl_upd_comm f hf A (f x a) a, hid, ih]

/-- The index triple written by a failing evaluation of the `j`-th standard
level: the standard level itself and its two brackets. -/
def tripleOf (cls : StdLevelsData) (j : ℕ) : List ℕ :=
  [jlevOf cls j, sbOf cls j, saOf cls j]

theorem orTriple_eq_foldl (cls : StdLevelsData) (fl : List ℕ) (j : ℕ) :
    orTriple cls fl j = (tripleOf cls j).foldl orFlagAt fl := rfl

theorem incTriple_eq_foldl (cls : StdLevelsData) (le : List ℤ) (j : ℕ) :
    incTriple cls le j = (tripleOf cls j).foldl incErrAt le := rfl

theorem orTriple_comm (cls : StdLevelsData) (fl : List ℕ) (j k : ℕ) :
    orTriple cls (orTriple cls fl j) k = orTriple cls (orTriple cls fl k) j := by
  simp only [orTriple_eq_foldl]
  exact foldl_upd_swap orFlagAt orFlagAt_comm (tripleOf cls j)
    (tripleOf cls k) fl

theorem incTriple_comm (cls : StdLevelsData) (le : List ℤ) (j k : ℕ) :
    incTriple cls (incTriple cls le j) k =
      incTriple cls (incTriple cls le k) j := by
  simp only [incTriple_eq_foldl]
  exact foldl_upd_swap incErrAt incErrAt_comm (tripleOf cls j)
    (tripleOf cls k) le

theorem orTriple_idem (cls : StdLevelsData) (fl : List ℕ) (j : ℕ) :
    orTriple cls (orTriple cls fl j) j = orTriple cls fl j := by
  simp only [orTriple_eq_foldl]
  exact foldl_upd_idem orFlagAt orFlagAt_comm orFlagAt_idem (tripleOf cls j) fl

theorem getD_orTriple_and_surf (cls : StdLevelsData) (fl : List ℕ) (j i : ℕ) :
    (orTriple cls fl j).getD i 0 &&& SurfaceLevelFlag =
      fl.getD i 0 &&& SurfaceLevelFlag := by
  simp only [orTriple, getD_orFlagAt_and_surf]

theorem getD_orTriple_not_mem (cls : StdLevelsData) (fl : List ℕ) (j i : ℕ)
    (h : i ∉ tripleOf cls j) : (orTriple cls fl j).getD i 0 = fl.getD i 0 := by
  simp only [tripleOf, List.mem_cons, List.not_mem_nil, or_false, not_or] at h
  obtain ⟨h1, h2, h3⟩ := h
  simp only [orTriple, getD_orFlagAt_ne _ _ _ (Ne.symm h3),
    getD_orFlagAt_ne _ _ _ (Ne.symm h2), getD_orFlagAt_ne _ _ _ (Ne.symm h1)]

theorem orTriple_length (cls : StdLevelsData) (fl : List ℕ) (j : ℕ) :
    (orTriple cls fl j).length = fl.length := by
  simp only [orTriple, orFlagAt_length]

theorem incTriple_length (cls : StdLevelsData) (le : List ℤ) (j : ℕ) :
    (incTriple cls le j).length = le.length := by
  simp only [incTriple, incErrAt_length]

/-! ### The flags projection of the loop -/

/-- The `j`-th standard level reaches the failure bookkeeping: it is not
surface-flagged (w.r.t. the flag words `fl`), no skip guard fires, and the
tolerance test fails. -/
def fireP (opts : ICheckOptions) (cls : StdLevelsData)
    (pressures tObsFinal : List ℚ) (fl : List ℕ) (j : ℕ) : Prop :=
  ¬ surfP cls fl j ∧ evaluable opts cls pressures j ∧
    tolFails opts cls pressures tObsFinal j

instance (opts : ICheckOptions) (cls : StdLevelsData)
    (pressures tObsFinal : List ℚ) (fl : List ℕ) (j : ℕ) :
    Decidable (fireP opts cls pressures tObsFinal fl j) := by
  unfold fireP; infer_instance

/-- What one loop iteration does to the flag words alone. -/
def flagsStep (opts : ICheckOptions) (cls : StdLevelsData)
    (pressures tObsFinal : List ℚ) (fl : List ℕ) (j : ℕ) : List ℕ :=
  if fireP opts cls pressures tObsFinal fl j then orTriple cls fl j else fl

/-- What the whole loop does to the flag words alone. -/
def flagsLoop (opts : ICheckOptions) (cls : StdLevelsData)
    (pressures tObsFinal : List ℚ) (fl : List ℕ) (idxs : List ℕ) : List ℕ :=
  idxs.foldl (flagsStep opts cls pressures tObsFinal) fl

theorem stepLoop_tFlags (opts : ICheckOptions) (cls : StdLevelsData)
    (pressures tObsFinal : List ℚ) (s : LoopState) (j : ℕ) :
    (stepLoop opts cls pressures tObsFinal s j).tFlags =
      flagsStep opts cls pressures tObsFinal s.tFlags j := by
  by_cases hs : surfP cls s.tFlags j
  · rw [stepLoop_eq_self_of_surf _ _ _ _ _ _ hs, flagsStep,
      if_neg (by rintro ⟨h, -⟩; exact h hs)]
  · by_cases he : evaluable opts cls pressures j
    · rw [stepLoop_eq_act _ _ _ _ _ _ hs he]
      by_cases hf : tolFails opts cls pressures tObsFinal j
      · rw [flagsStep, if_pos ⟨hs, he, hf⟩]
        simp [actOn, if_pos hf]
      · rw [flagsStep, if_neg (by rintro ⟨-, -, h⟩; exact hf h)]
        simp [actOn, if_neg hf]
    · rw [stepLoop_eq_self_of_skip _ _ _ _ _ _ (not_not.mp he), flagsStep,
        if_neg (by rintro ⟨-, h, -⟩; exact he h)]

theorem loopOver_tFlags (opts : ICheckOptions) (cls : StdLevelsData)
    (pressures tObsFinal : List ℚ) (idxs : List ℕ) :
    ∀ s : LoopState,
      (loopOver opts cls pressures tObsFinal s idxs).tFlags =
        flagsLoop opts cls pressures tObsFinal s.tFlags idxs := by
  induction idxs with
  | nil => intro s; rfl
  | cons j idxs ih =>
      intro s
      simp only [loopOver, flagsLoop, List.foldl_cons]
      rw [← flagsLoop, ← loopOver, ih, stepLoop_tFlags]

theorem getD_flagsStep_and_surf (opts : ICheckOptions) (cls : StdLevelsData)
    (pressures tObsFinal : List ℚ) (fl : List ℕ) (j i : ℕ) :
    (flagsStep opts cls pressures tObsFinal fl j).getD i 0 &&&
        SurfaceLevelFlag = fl.getD i 0 &&& SurfaceLevelFlag := by
  unfold flagsStep
  split_ifs
  · exact getD_orTriple_and_surf cls fl j i
  · rfl

theorem getD_flagsLoop_and_surf (opts : ICheckOptions) (cls : StdLevelsData)
    (pressures tObsFinal : List ℚ) (idxs : List ℕ) :
    ∀ (fl : List ℕ) (i : ℕ),
      (flagsLoop opts cls pressures tObsFinal fl idxs).getD i 0 &&&
          SurfaceLevelFlag = fl.getD i 0 &&& SurfaceLevelFlag := by
  induction idxs with
  | nil => intro fl i; rfl
  | cons j idxs ih =>
      intro fl i
      simp only [flagsLoop, List.foldl_cons]
      rw [← flagsLoop, ih, getD_flagsStep_and_surf]

theorem fireP_congr (opts : ICheckOptions) (cls : StdLevelsData)
    (pressures tObsFinal : List ℚ) (fl fl' : List ℕ) (j : ℕ)
    (h : fl'.getD (jlevOf cls j) 0 &&& SurfaceLevelFlag =
      fl.getD (jlevOf cls j) 0 &&& SurfaceLevelFlag) :
    fireP opts cls pressures tObsFinal fl' j ↔
      fireP opts cls pressures tObsFinal fl j := by
  unfold fireP surfP
  rw [h]

/-- Switching the flags fold to guard conditions evaluated on a reference
flag vector with the same surface bits. -/
theorem flagsLoop_eq_fixed (opts : ICheckOptions) (cls : StdLevelsData)
    (pressures tObsFinal : List ℚ) (fl0 : List ℕ) (idxs : List ℕ) :
    ∀ fl : List ℕ,
      (∀ i, fl.getD i 0 &&& SurfaceLevelFlag =
        fl0.getD i 0 &&& SurfaceLevelFlag) →
      flagsLoop opts cls pressures tObsFinal fl idxs =
        idxs.foldl
          (fun g j =>
            if fireP opts cls pressures tObsFinal fl0 j then orTriple cls g j
            else g)
          fl := by
  induction idxs with
  | nil => intro fl _; rfl
  | cons j idxs ih =>
      intro fl hsurf
      simp only [flagsLoop, List.foldl_cons]
      rw [← flagsLoop]
      have hstep : flagsStep opts cls pressures tObsFinal fl j =
          if fireP opts cls pressures tObsFinal fl0 j then orTriple cls fl j
          else fl := by
        unfold flagsStep
        rw [if_congr (fireP_congr opts cls pressures tObsFinal fl0 fl j
          (hsurf _)) rfl rfl]
      rw [hstep]
      split_ifs with hfire
      · exact ih _ (fun i => by
          rw [getD_orTriple_and_surf]; exact hsurf i)
      · exact ih _ hsurf

theorem flagsStep_length (opts : ICheckOptions) (cls : StdLevelsData)
    (pressures tObsFinal : List ℚ) (fl : List ℕ) (j : ℕ) :
    (flagsStep opts cls pressures tObsFinal fl j).length = fl.length := by
  unfold flagsStep
  split_ifs
  · exact orTriple_length cls fl j
  · rfl

theorem flagsLoop_length (opts : ICheckOptions) (cls : StdLevelsData)
    (pressures tObsFinal : List ℚ) (idxs : List ℕ) :
    ∀ fl : List ℕ,
      (flagsLoop opts cls pressures tObsFinal fl idxs).length = fl.length := by
  induction idxs with
  | nil => intro fl; rfl
  | cons j idxs ih =>
      intro fl
      simp only [flagsLoop, List.foldl_cons]
      rw [← flagsLoop, ih, flagsStep_length]

/-! ### The counters invariant of the loop -/

theorem stepLoop_counters (opts : ICheckOptions) (cls : StdLevelsData)
    (pressures tObsFinal : List ℚ) (s : LoopState) (j : ℕ) :
    ∃ k : ℕ,
      (stepLoop opts cls pressures tObsFinal s j).NumAnyErrors =
        s.NumAnyErrors + k ∧
      (stepLoop opts cls pressures tObsFinal s j).NumInterpErrors =
        s.NumInterpErrors + k ∧
      (stepLoop opts cls pressures tObsFinal s j).NumErrors =
        s.NumErrors + k := by
  by_cases hs : surfP cls s.tFlags j
  · refine ⟨0, ?_⟩
    rw [stepLoop_eq_self_of_surf _ _ _ _ _ _ hs]
    norm_num
  · by_cases he : evaluable opts cls pressures j
    · by_cases hf : tolFails opts cls pressures tObsFinal j
      · refine ⟨1, ?_⟩
        rw [stepLoop_eq_act _ _ _ _ _ _ hs he]
        simp [actOn, if_pos hf]
      · refine ⟨0, ?_⟩
        rw [stepLoop_eq_act _ _ _ _ _ _ hs he]
        simp [actOn, if_neg hf]
    · refine ⟨0, ?_⟩
      rw [stepLoop_eq_self_of_skip _ _ _ _ _ _ (not_not.mp he)]
      norm_num

theorem loopOver_counters (opts : ICheckOptions) (cls : StdLevelsData)
    (pressures tObsFinal : List ℚ) (idxs : List ℕ) :
    ∀ s : LoopState, ∃ k : ℕ,
      (loopOver opts cls pressures tObsFinal s idxs).NumAnyErrors =
        s.NumAnyErrors + k ∧
      (loopOver opts cls pressures tObsFinal s idxs).NumInterpErrors =
        s.NumInterpErrors + k ∧
      (loopOver opts cls pressures tObsFinal s idxs).NumErrors =
        s.NumErrors + k := by
  induction idxs with
  | nil => exact fun s => ⟨0, by simp [loopOver]⟩
  | cons j idxs ih =>
      intro s
      simp only [loopOver, List.foldl_cons]
      obtain ⟨k1, h1, h2, h3⟩ :=
        stepLoop_counters opts cls pressures tObsFinal s j
      obtain ⟨k2, g1, g2, g3⟩ := ih (stepLoop opts cls pressures tObsFinal s j)
      refine ⟨k1 + k2, ?_, ?_, ?_⟩
      · rw [← loopOver, g1, h1]; push_cast; ring
      · rw [← loopOver, g2, h2]; push_cast; ring
      · rw [← loopOver, g3, h3]; push_cast; ring

/-! ### Claim C1: the `BigGap` band selection -/

/-- The band selector as the spec words it ("the first band whose threshold
is ≥ the level's rounded pressure").  Defined only to compare against the
source's `bigGapLookup`. -/
def bigGapLookupSpec : List ℤ → List ℚ → ℤ → ℚ → ℚ
  | [], _, _, dflt => dflt
  | t :: ts, gaps, ip, dflt =>
      if ip ≤ t then gaps.headD 0 * 100
      else bigGapLookupSpec ts gaps.tail ip dflt

/-- C1 counterexample: with band table `[1000, 500]` (hPa), gaps `[3, 7]`
(hPa) and a level rounding to 700 hPa, the source scan (first threshold `≤`
the rounded pressure) selects the 500-band gap, 700 Pa, while the claim's
rule (first threshold `≥` the rounded pressure) would select the 1000-band
gap, 300 Pa.  The claim is false of the code. -/
theorem C1_counterexample :
    bigGapLookup [1000, 500] [3, 7] 700 1 = 700 ∧
    bigGapLookupSpec [1000, 500] [3, 7] 700 1 = 300 ∧
    bigGapLookup [1000, 500] [3, 7] 700 1 ≠
      bigGapLookupSpec [1000, 500] [3, 7] 700 1 := by
  refine ⟨?_, ?_, ?_⟩ <;> norm_num [bigGapLookup, bigGapLookupSpec]

/-- C1 (amended): the gap selected by the scan `runCheck` performs is the
gap of the first band of the table whose threshold is `≤` the level's
pressure rounded to whole hPa, converted hPa → Pa (`× 100`); the initial
default if no band matches. -/
theorem C1_bigGap_first_band_le (stdLevels : List ℤ) (gaps : List ℚ) (ip : ℤ)
    (dflt : ℚ) (hlen : stdLevels.length = gaps.length) :
    bigGapLookup stdLevels gaps ip dflt =
      ((stdLevels.zip gaps).find? (fun tg => decide (tg.1 ≤ ip))).elim dflt
        (fun tg => tg.2 * 100) := by
  induction stdLevels generalizing gaps with
  | nil => simp [bigGapLookup]
  | cons t ts ih =>
      cases gaps with
      | nil => simp at hlen
      | cons g gs =>
          by_cases h : t ≤ ip
          · simp [bigGapLookup, h]
          · simp only [bigGapLookup, if_neg h, List.tail_cons,
              List.zip_cons_cons]
            rw [List.find?_cons_of_neg _ (by simpa using h)]
            exact ih gs (by simpa using hlen)

/-- C1 witness: the amended selection rule evaluated on the counterexample's
band table at 700 hPa. -/
theorem C1_bigGap_first_band_le_witness :
    ([(1000:ℤ), 500].length = [(3:ℚ), 7].length) ∧
    bigGapLookup [1000, 500] [3, 7] 700 1 =
      (([(1000:ℤ), 500].zip [(3:ℚ), 7]).find?
        (fun tg => decide (tg.1 ≤ 700))).elim 1 (fun tg => tg.2 * 100) :=
  ⟨rfl, C1_bigGap_first_band_le [1000, 500] [3, 7] 700 1 rfl⟩

/-! ### Concrete fixtures used by the witness theorems -/

/-- A concrete configuration: empty band table (so the initial default gap,
10^6 Pa, always applies), tolerance 1 K, no relaxation. -/
def witOpts : ICheckOptions :=
  { ICheck_BigGapInit := 1000000
    StandardLevels := []
    BigGaps := []
    ICheck_TInterpTol := 1
    ICheck_TolRelaxPThresh := 0
    ICheck_TolRelax := 1 }

/-- A concrete 5-level classification: standard levels at profile indices
0, 2, 4; the middle one bracketed by significant levels 1 and 3; the outer
two missing a bracket. -/
def witCls : StdLevelsData :=
  { NumStd := 3
    NumSig := 3
    StdLev := [0, 2, 4]
    SigBelow := [-1, 1, 3]
    SigAbove := [-1, 3, -1]
    LogP := [5, 4, 3, 2, 1] }

/-- Concrete pressures (Pa), surface to upper air. -/
def witPressures : List ℚ := [100000, 85000, 70000, 50000, 30000]

/-- Concrete corrected observations (K); level 2 is 5 K off the value
interpolated from levels 1 and 3 (260 K). -/
def witTObs : List ℚ := [280, 270, 265, 250, 230]

/-- The all-clear initial loop state for the 5-level fixture. -/
def witState : LoopState :=
  { tFlags := [0, 0, 0, 0, 0]
    NumAnyErrors := 0
    NumInterpErrors := 0
    NumErrors := 0
    LevErrors := [-1, -1, -1, -1, -1]
    tInterp := List.replicate 5 missingValueFloat }

/-! ### Claim C2: the interpolation formula -/

/-- C2: for every standard level that passes all guards, the value written
to `tInterp` at that level is `tObsFinal[SigBelow] + (tObsFinal[SigAbove] -
tObsFinal[SigBelow]) * (LogP[lev] - LogP[SigBelow]) / (LogP[SigAbove] -
LogP[SigBelow])`: linear interpolation in log-pressure between the two
bracketing corrected observations, a pure function of the inputs. -/
theorem C2_interpolation_formula (opts : ICheckOptions) (cls : StdLevelsData)
    (pressures tObsFinal : List ℚ) (s : LoopState) (j : ℕ)
    (hs : ¬ surfP cls s.tFlags j)
    (he : evaluable opts cls pressures j)
    (hlen : jlevOf cls j < s.tInterp.length) :
    (stepLoop opts cls pressures tObsFinal s j).tInterp.getD
        (jlevOf cls j) 0 =
      tObsFinal.getD (sbOf cls j) 0 +
        (tObsFinal.getD (saOf cls j) 0 - tObsFinal.getD (sbOf cls j) 0) *
          ((cls.LogP.getD (jlevOf cls j) 0 - cls.LogP.getD (sbOf cls j) 0) /
            (cls.LogP.getD (saOf cls j) 0 - cls.LogP.getD (sbOf cls j) 0)) := by
  rw [stepLoop_eq_act _ _ _ _ _ _ hs he]
  have hti : (actOn opts cls pressures tObsFinal s j).tInterp =
      s.tInterp.set (jlevOf cls j) (interpValOf cls tObsFinal j) := rfl
  rw [hti, getD_set_self _ _ _ _ hlen, interpValOf]

/-- C2 witness: the 5-level fixture at loop position 1 (profile level 2,
brackets 1 and 3): the written value is 270 + (250 - 270) * ((3-4)/(2-4)). -/
theorem C2_interpolation_formula_witness :
    (¬ surfP witCls witState.tFlags 1) ∧
    evaluable witOpts witCls witPressures 1 ∧
    jlevOf witCls 1 < witState.tInterp.length ∧
    (stepLoop witOpts witCls witPressures witTObs witState 1).tInterp.getD
        (jlevOf witCls 1) 0 =
      witTObs.getD (sbOf witCls 1) 0 +
        (witTObs.getD (saOf witCls 1) 0 - witTObs.getD (sbOf witCls 1) 0) *
          ((witCls.LogP.getD (jlevOf witCls 1) 0 -
              witCls.LogP.getD (sbOf witCls 1) 0) /
            (witCls.LogP.getD (saOf witCls 1) 0 -
              witCls.LogP.getD (sbOf witCls 1) 0)) := by
  have hs : ¬ surfP witCls witState.tFlags 1 := by
    norm_num [surfP, jlevOf, witCls, witState, SurfaceLevelFlag]
  have he : evaluable witOpts witCls witPressures 1 := by
    norm_num [evaluable, skipGuards, sigBOf, sigAOf, sbOf, saOf, jlevOf,
      bigGapOf, bigGapLookup, witOpts, witCls, witPressures, Int.toNat]
  have hlen : jlevOf witCls 1 < witState.tInterp.length := by
    norm_num [jlevOf, witCls, witState]
  exact ⟨hs, he, hlen,
    C2_interpolation_formula witOpts witCls witPressures witTObs witState 1
      hs he hlen⟩

/-! ### Claim C3: the tolerance test -/

/-- C3: for every evaluated standard level the tolerance test fails exactly
when `|tObsFinal[lev] - tInterp[lev]| > TInterpTol * TolRelax`, where
`TolRelax` is the configured relaxation factor when the level's pressure is
strictly below the configured threshold and 1 otherwise.  Failure is
observed through the `NumAnyErrors` increment. -/
theorem C3_tolerance_test (opts : ICheckOptions) (cls : StdLevelsData)
    (pressures tObsFinal : List ℚ) (s : LoopState) (j : ℕ)
    (hs : ¬ surfP cls s.tFlags j)
    (he : evaluable opts cls pressures j) :
    ((stepLoop opts cls pressures tObsFinal s j).NumAnyErrors ≠
        s.NumAnyErrors) ↔
      |tObsFinal.getD (jlevOf cls j) 0 - interpValOf cls tObsFinal j| >
        opts.ICheck_TInterpTol *
          (if pressures.getD (jlevOf cls j) 0 < opts.ICheck_TolRelaxPThresh
            then opts.ICheck_TolRelax else 1) := by
  rw [stepLoop_eq_act _ _ _ _ _ _ hs he]
  by_cases hf : tolFails opts cls pressures tObsFinal j
  · have hf' := hf
    rw [tolFails, tolRelaxOf] at hf'
    simp only [actOn, if_pos hf]
    constructor
    · intro _; exact hf'
    · intro _; omega
  · have hf' := hf
    rw [tolFails, tolRelaxOf] at hf'
    simp only [actOn, if_neg hf, add_zero]
    constructor
    · intro h; exact absurd rfl h
    · intro h; exact absurd h hf'

/-- C3 witness: the 5-level fixture at loop position 1: `|265 - 260| = 5`
exceeds the tolerance `1 * 1`, and `NumAnyErrors` indeed moves. -/
theorem C3_tolerance_test_witness :
    (¬ surfP witCls witState.tFlags 1) ∧
    evaluable witOpts witCls witPressures 1 ∧
    (((stepLoop witOpts witCls witPressures witTObs witState 1).NumAnyErrors ≠
        witState.NumAnyErrors) ↔
      |witTObs.getD (jlevOf witCls 1) 0 - interpValOf witCls witTObs 1| >
        witOpts.ICheck_TInterpTol *
          (if witPressures.getD (jlevOf witCls 1) 0 <
              witOpts.ICheck_TolRelaxPThresh
            then witOpts.ICheck_TolRelax else 1)) := by
  have hs : ¬ surfP witCls witState.tFlags 1 := by
    norm_num [surfP, jlevOf, witCls, witState, SurfaceLevelFlag]
  have he : evaluable witOpts witCls witPressures 1 := by
    norm_num [evaluable, skipGuards, sigBOf, sigAOf, sbOf, saOf, jlevOf,
      bigGapOf, bigGapLookup, witOpts, witCls, witPressures, Int.toNat]
  exact ⟨hs, he,
    C3_tolerance_test witOpts witCls witPressures witTObs witState 1 hs he⟩

/-! ### Claim C4: the failure bookkeeping -/

/-- C4: whenever an evaluated standard level fails the tolerance test, the
loop body increments `NumAnyErrors` and `NumInterpErrors` by exactly one
each, ORs the interpolation-failed bit into the flag word of the standard
level and of both brackets, and increments `LevErrors` at all three
participating indices by exactly one each. -/
theorem C4_failure_bookkeeping (opts : ICheckOptions) (cls : StdLevelsData)
    (pressures tObsFinal : List ℚ) (s : LoopState) (j : ℕ)
    (hs : ¬ surfP cls s.tFlags j)
    (he : evaluable opts cls pressures j)
    (hf : tolFails opts cls pressures tObsFinal j)
    (hne1 : jlevOf cls j ≠ sbOf cls j)
    (hne2 : jlevOf cls j ≠ saOf cls j)
    (hne3 : sbOf cls j ≠ saOf cls j)
    (hl1 : jlevOf cls j < s.tFlags.length)
    (hl2 : sbOf cls j < s.tFlags.length)
    (hl3 : saOf cls j < s.tFlags.length)
    (hm1 : jlevOf cls j < s.LevErrors.length)
    (hm2 : sbOf cls j < s.LevErrors.length)
    (hm3 : saOf cls j < s.LevErrors.length) :
    (stepLoop opts cls pressures tObsFinal s j).NumAnyErrors =
        s.NumAnyErrors + 1 ∧
    (stepLoop opts cls pressures tObsFinal s j).NumInterpErrors =
        s.NumInterpErrors + 1 ∧
    (stepLoop opts cls pressures tObsFinal s j).tFlags.getD
        (jlevOf cls j) 0 =
      s.tFlags.getD (jlevOf cls j) 0 ||| InterpolationFlag ∧
    (stepLoop opts cls pressures tObsFinal s j).tFlags.getD (sbOf cls j) 0 =
      s.tFlags.getD (sbOf cls j) 0 ||| InterpolationFlag ∧
    (stepLoop opts cls pressures tObsFinal s j).tFlags.getD (saOf cls j) 0 =
      s.tFlags.getD (saOf cls j) 0 ||| InterpolationFlag ∧
    (stepLoop opts cls pressures tObsFinal s j).LevErrors.getD
        (jlevOf cls j) 0 =
      s.LevErrors.getD (jlevOf cls j) 0 + 1 ∧
    (stepLoop opts cls pressures tObsFinal s j).LevErrors.getD
        (sbOf cls j) 0 =
      s.LevErrors.getD (sbOf cls j) 0 + 1 ∧
    (stepLoop opts cls pressures tObsFinal s j).LevErrors.getD
        (saOf cls j) 0 =
      s.LevErrors.getD (saOf cls j) 0 + 1 := by
  rw [stepLoop_eq_act _ _ _ _ _ _ hs he]
  have hfl : (actOn opts cls pressures tObsFinal s j).tFlags =
      orTriple cls s.tFlags j := by
    simp only [actOn, if_pos hf]
  have hle : (actOn opts cls pressures tObsFinal s j).LevErrors =
      incTriple cls s.LevErrors j := by
    simp only [actOn, if_pos hf]
  refine ⟨by simp [actOn, if_pos hf], by simp [actOn, if_pos hf],
    ?_, ?_, ?_, ?_, ?_, ?_⟩
  · rw [hfl, orTriple, getD_orFlagAt_ne _ _ _ hne2.symm,
      getD_orFlagAt_ne _ _ _ hne1.symm,
      getD_orFlagAt_self _ _ hl1]
  · rw [hfl, orTriple, getD_orFlagAt_ne _ _ _ hne3.symm,
      getD_orFlagAt_self _ _ (by rw [orFlagAt_length]; exact hl2),
      getD_orFlagAt_ne _ _ _ hne1]
  · rw [hfl, orTriple,
      getD_orFlagAt_self _ _
        (by rw [orFlagAt_length, orFlagAt_length]; exact hl3),
      getD_orFlagAt_ne _ _ _ hne3, getD_orFlagAt_ne _ _ _ hne2]
  · rw [hle, incTriple, getD_incErrAt_ne _ _ _ hne2.symm,
      getD_incErrAt_ne _ _ _ hne1.symm,
      getD_incErrAt_self _ _ hm1]
  · rw [hle, incTriple, getD_incErrAt_ne _ _ _ hne3.symm,
      getD_incErrAt_self _ _ (by rw [incErrAt_length]; exact hm2),
      getD_incErrAt_ne _ _ _ hne1]
  · rw [hle, incTriple,
      getD_incErrAt_self _ _
        (by rw [incErrAt_length, incErrAt_length]; exact hm3),
      getD_incErrAt_ne _ _ _ hne3, getD_incErrAt_ne _ _ _ hne2]

/-- C4 witness: the 5-level fixture at loop position 1; the failing triple
is (2, 1, 3) and every hypothesis holds concretely. -/
theorem C4_failure_bookkeeping_witness :
    (¬ surfP witCls witState.tFlags 1) ∧
    evaluable witOpts witCls witPressures 1 ∧
    tolFails witOpts witCls witPressures witTObs 1 ∧
    ((stepLoop witOpts witCls witPressures witTObs witState 1).NumAnyErrors =
        witState.NumAnyErrors + 1 ∧
      (stepLoop witOpts witCls witPressures witTObs
          witState 1).NumInterpErrors = witState.NumInterpErrors + 1 ∧
      (stepLoop witOpts witCls witPressures witTObs witState 1).tFlags.getD
          (jlevOf witCls 1) 0 =
        witState.tFlags.getD (jlevOf witCls 1) 0 ||| InterpolationFlag ∧
      (stepLoop witOpts witCls witPressures witTObs witState 1).tFlags.getD
          (sbOf witCls 1) 0 =
        witState.tFlags.getD (sbOf witCls 1) 0 ||| InterpolationFlag ∧
      (stepLoop witOpts witCls witPressures witTObs witState 1).tFlags.getD
          (saOf witCls 1) 0 =
        witState.tFlags.getD (saOf witCls 1) 0 ||| InterpolationFlag ∧
      (stepLoop witOpts witCls witPressures witTObs witState 1).LevErrors.getD
          (jlevOf witCls 1) 0 =
        witState.LevErrors.getD (jlevOf witCls 1) 0 + 1 ∧
      (stepLoop witOpts witCls witPressures witTObs witState 1).LevErrors.getD
          (sbOf witCls 1) 0 =
        witState.LevErrors.getD (sbOf witCls 1) 0 + 1 ∧
      (stepLoop witOpts witCls witPressures witTObs witState 1).LevErrors.getD
          (saOf witCls 1) 0 =
        witState.LevErrors.getD (saOf witCls 1) 0 + 1) := by
  have hs : ¬ surfP witCls witState.tFlags 1 := by
    norm_num [surfP, jlevOf, witCls, witState, SurfaceLevelFlag]
  have he : evaluable witOpts witCls witPressures 1 := by
    norm_num [evaluable, skipGuards, sigBOf, sigAOf, sbOf, saOf, jlevOf,
      bigGapOf, bigGapLookup, witOpts, witCls, witPressures, Int.toNat]
  have hf : tolFails witOpts witCls witPressures witTObs 1 := by
    norm_num [tolFails, tolRelaxOf, interpValOf, jlevOf, sbOf, saOf, sigBOf,
      sigAOf, witOpts, witCls, witPressures, witTObs, Int.toNat]
  refine ⟨hs, he, hf, ?_⟩
  exact C4_failure_bookkeeping witOpts witCls witPressures witTObs witState 1
    hs he hf
    (by norm_num [jlevOf, sbOf, sigBOf, witCls, Int.toNat])
    (by norm_num [jlevOf, saOf, sigAOf, witCls, Int.toNat])
    (by norm_num [sbOf, saOf, sigBOf, sigAOf, witCls, Int.toNat])
    (by norm_num [jlevOf, witCls, witState])
    (by norm_num [sbOf, sigBOf, witCls, witState, Int.toNat])
    (by norm_num [saOf, sigAOf, witCls, witState, Int.toNat])
    (by norm_num [jlevOf, witCls, witState])
    (by norm_num [sbOf, sigBOf, witCls, witState, Int.toNat])
    (by norm_num [saOf, sigAOf, witCls, witState, Int.toNat])

/-! ### Claim C5: the silent skip guards -/

theorem loopOver_eq_self (opts : ICheckOptions) (cls : StdLevelsData)
    (pressures tObsFinal : List ℚ) (idxs : List ℕ)
    (h : ∀ j ∈ idxs, skipGuards opts cls pressures j) :
    ∀ s : LoopState, loopOver opts cls pressures tObsFinal s idxs = s := by
  induction idxs with
  | nil => intro s; rfl
  | cons j idxs ih =>
      intro s
      simp only [loopOver, List.foldl_cons]
      rw [← loopOver,
        stepLoop_eq_self_of_skip _ _ _ _ _ _ (h j (List.mem_cons_self j idxs))]
      exact ih (fun k hk => h k (List.mem_cons_of_mem j hk)) s

/-- C5: a standard level is silently skipped — the state is completely
unchanged by its iteration — whenever `NumSig < max(3, NumStd/2)`, a bracket
index is the sentinel `-1`, a bracket-to-level pressure difference exceeds
the selected `BigGap`, or the two brackets share a log-pressure; and a valid
profile all of whose standard levels are so skipped (in particular one with
`NumStd = 0`) leaves flags and counters at their inputs, `tInterp` all
missing-value sentinels and `LevErrors` all `-1`. -/
theorem C5_skip_guards (opts : ICheckOptions) (cls : StdLevelsData)
    (pressures tObs tBkg : List ℚ) (tFlags : List ℕ)
    (tObsCorrection : List ℚ) (n : ℕ) (c : Counters) :
    (∀ (tObsFinal : List ℚ) (s : LoopState) (j : ℕ),
      skipGuards opts cls pressures j →
      stepLoop opts cls pressures tObsFinal s j = s) ∧
    (anyVectorEmpty pressures tObs tBkg tFlags tObsCorrection = false →
      allVectorsSameSize pressures tObs tBkg tFlags tObsCorrection = true →
      (∀ j, j < cls.NumStd → skipGuards opts cls pressures j) →
      runCheck opts n cls pressures tObs tBkg tFlags tObsCorrection c =
        { warning := none, tFlags := tFlags, counters := c,
          LevErrors := some (List.replicate n (-1)),
          tInterp := some (List.replicate n missingValueFloat) }) := by
  constructor
  · intro tObsFinal s j hg
    exact stepLoop_eq_self_of_skip _ _ _ _ _ _ hg
  · intro h1 h2 hskip
    simp only [runCheck]
    rw [if_neg (by rw [h1]; exact Bool.false_ne_true),
      if_neg (by rw [h2]; exact fun h => h rfl)]
    rw [loopOver_eq_self opts cls pressures (correctVector tObs tObsCorrection)
      (List.range cls.NumStd) (fun j hj => hskip j (List.mem_range.mp hj))]
    norm_num

/-- C5 witness: a valid 2-level profile whose single standard level has no
lower bracket (`SigBelow = -1`): `runCheck` returns with everything at its
input value, `tInterp` all sentinels and `LevErrors` all `-1`. -/
theorem C5_skip_guards_witness :
    (anyVectorEmpty [100000, 90000] [280, 279] [280, 279] [0, 0] [0, 0] =
      false) ∧
    (allVectorsSameSize [100000, 90000] [280, 279] [280, 279] [0, 0] [0, 0] =
      true) ∧
    (∀ j, j < (StdLevelsData.mk 1 3 [0] [-1] [1] [5, 4]).NumStd →
      skipGuards witOpts (StdLevelsData.mk 1 3 [0] [-1] [1] [5, 4])
        [100000, 90000] j) ∧
    runCheck witOpts 2 (StdLevelsData.mk 1 3 [0] [-1] [1] [5, 4])
        [100000, 90000] [280, 279] [280, 279] [0, 0] [0, 0]
        (Counters.mk 4 2 1) =
      { warning := none, tFlags := [0, 0], counters := Counters.mk 4 2 1,
        LevErrors := some (List.replicate 2 (-1)),
        tInterp := some (List.replicate 2 missingValueFloat) } := by
  have h1 : anyVectorEmpty [100000, 90000] [280, 279] [280, 279] [0, 0]
      [0, 0] = false := rfl
  have h2 : allVectorsSameSize [100000, 90000] [280, 279] [280, 279] [0, 0]
      [0, 0] = true := rfl
  have h3 : ∀ j, j < (StdLevelsData.mk 1 3 [0] [-1] [1] [5, 4]).NumStd →
      skipGuards witOpts (StdLevelsData.mk 1 3 [0] [-1] [1] [5, 4])
        [100000, 90000] j := by
    intro j hj
    match j, hj with
    | 0, _ => exact Or.inr (Or.inl rfl)
  exact ⟨h1, h2, h3,
    (C5_skip_guards witOpts (StdLevelsData.mk 1 3 [0] [-1] [1] [5, 4])
      [100000, 90000] [280, 279] [280, 279] [0, 0] [0, 0] 2
      (Counters.mk 4 2 1)).2 h1 h2 h3⟩

/-! ### Claim C6: the surface-level exclusion -/

/-- C6: a standard level whose flag word has the surface-level bit set is
never evaluated: its loop iteration leaves the whole state unchanged,
whatever the observation values are. -/
theorem C6_surface_exclusion (opts : ICheckOptions) (cls : StdLevelsData)
    (pressures tObsFinal : List ℚ) (s : LoopState) (j : ℕ)
    (hs : s.tFlags.getD (jlevOf cls j) 0 &&& SurfaceLevelFlag ≠ 0) :
    stepLoop opts cls pressures tObsFinal s j = s :=
  stepLoop_eq_self_of_surf opts cls pressures tObsFinal s j hs

/-- C6 witness: the 5-level fixture with the surface bit set on profile
level 2 (the standard level at loop position 1): the iteration that failed
in the C4 witness is now a complete no-op, with the same extreme
observation. -/
theorem C6_surface_exclusion_witness :
    (({ witState with tFlags := [0, 0, 1, 0, 0] } :
        LoopState).tFlags.getD (jlevOf witCls 1) 0 &&& SurfaceLevelFlag ≠ 0) ∧
    stepLoop witOpts witCls witPressures witTObs
        { witState with tFlags := [0, 0, 1, 0, 0] } 1 =
      { witState with tFlags := [0, 0, 1, 0, 0] } := by
  have hs : ({ witState with tFlags := [0, 0, 1, 0, 0] } :
      LoopState).tFlags.getD (jlevOf witCls 1) 0 &&& SurfaceLevelFlag ≠ 0 := by
    norm_num [witState, witCls, jlevOf, SurfaceLevelFlag]
  exact ⟨hs, C6_surface_exclusion witOpts witCls witPressures witTObs
    { witState with tFlags := [0, 0, 1, 0, 0] } 1 hs⟩

/-! ### Claim C7: input validation -/

/-- C7: if any of the five fetched vectors is empty, or they are nonempty
but not all of one length, `runCheck` returns normally with the matching
warning recorded and no mutation: flags and counters keep their input
values and no result arrays are produced. -/
theorem C7_input_validation (opts : ICheckOptions) (n : ℕ)
    (cls : StdLevelsData) (pressures tObs tBkg : List ℚ) (tFlags : List ℕ)
    (tObsCorrection : List ℚ) (c : Counters)
    (h : anyVectorEmpty pressures tObs tBkg tFlags tObsCorrection = true ∨
      (anyVectorEmpty pressures tObs tBkg tFlags tObsCorrection = false ∧
        allVectorsSameSize pressures tObs tBkg tFlags tObsCorrection =
          false)) :
    runCheck opts n cls pressures tObs tBkg tFlags tObsCorrection c =
      { warning :=
          some (if anyVectorEmpty pressures tObs tBkg tFlags tObsCorrection
            then CheckWarning.emptyVectors else CheckWarning.sizeMismatch)
        tFlags := tFlags
        counters := c
        LevErrors := none
        tInterp := none } := by
  rcases h with h | ⟨h1, h2⟩
  · simp only [runCheck]
    rw [if_pos h, h]
    rfl
  · simp only [runCheck]
    rw [if_neg (by rw [h1]; exact Bool.false_ne_true),
      if_pos (by rw [h2]; exact fun h => Bool.false_ne_true h), h1]
    rfl

/-- C7 witness: an empty pressure vector alongside nonempty companions:
the check aborts with the empty-vector warning and changes nothing. -/
theorem C7_input_validation_witness :
    (anyVectorEmpty ([] : List ℚ) [280] [280] [0] [0] = true ∨
      (anyVectorEmpty ([] : List ℚ) [280] [280] [0] [0] = false ∧
        allVectorsSameSize ([] : List ℚ) [280] [280] [0] [0] = false)) ∧
    runCheck witOpts 1 witCls ([] : List ℚ) [280] [280] [0] [0]
        (Counters.mk 7 5 3) =
      { warning :=
          some (if anyVectorEmpty ([] : List ℚ) [280] [280] [0] [0]
            then CheckWarning.emptyVectors else CheckWarning.sizeMismatch)
        tFlags := [0]
        counters := Counters.mk 7 5 3
        LevErrors := none
        tInterp := none } := by
  have h : anyVectorEmpty ([] : List ℚ) [280] [280] [0] [0] = true ∨
      (anyVectorEmpty ([] : List ℚ) [280] [280] [0] [0] = false ∧
        allVectorsSameSize ([] : List ℚ) [280] [280] [0] [0] = false) :=
    Or.inl rfl
  exact ⟨h, C7_input_validation witOpts 1 witCls [] [280] [280] [0] [0]
    (Counters.mk 7 5 3) h⟩

/-! ### Claim C8: the once-per-profile `NumInterpErrObs` increment -/

/-- C8: per valid invocation, `NumInterpErrObs` either stays or advances by
exactly one, and it advances exactly when at least one standard level failed
the tolerance test during the invocation (observable as a strict increase of
the per-failure counter `NumInterpErrors`), however many levels failed. -/
theorem C8_NumInterpErrObs (opts : ICheckOptions) (n : ℕ)
    (cls : StdLevelsData) (pressures tObs tBkg : List ℚ) (tFlags : List ℕ)
    (tObsCorrection : List ℚ) (c : Counters)
    (h1 : anyVectorEmpty pressures tObs tBkg tFlags tObsCorrection = false)
    (h2 : allVectorsSameSize pressures tObs tBkg tFlags tObsCorrection =
      true) :
    ((runCheck opts n cls pressures tObs tBkg tFlags tObsCorrection
          c).counters.NumInterpErrObs = c.NumInterpErrObs ∨
      (runCheck opts n cls pressures tObs tBkg tFlags tObsCorrection
          c).counters.NumInterpErrObs = c.NumInterpErrObs + 1) ∧
    ((runCheck opts n cls pressures tObs tBkg tFlags tObsCorrection
          c).counters.NumInterpErrObs = c.NumInterpErrObs + 1 ↔
      c.NumInterpErrors <
        (runCheck opts n cls pressures tObs tBkg tFlags tObsCorrection
          c).counters.NumInterpErrors) := by
  simp only [runCheck]
  rw [if_neg (by rw [h1]; exact Bool.false_ne_true),
    if_neg (by rw [h2]; exact fun h => h rfl)]
  obtain ⟨k, hA, hI, hE⟩ := loopOver_counters opts cls pressures
    (correctVector tObs tObsCorrection) (List.range cls.NumStd)
    { tFlags := tFlags
      NumAnyErrors := c.NumAnyErrors
      NumInterpErrors := c.NumInterpErrors
      NumErrors := 0
      LevErrors := List.replicate n (-1)
      tInterp := List.replicate n missingValueFloat }
  dsimp only at hI hE ⊢
  rw [hI, hE]
  constructor
  · by_cases hk : (0:ℤ) + k > 0
    · rw [if_pos hk]; omega
    · rw [if_neg hk]; omega
  · by_cases hk : (0:ℤ) + k > 0
    · rw [if_pos hk]
      constructor
      · intro _; omega
      · intro _; rfl
    · rw [if_neg hk]
      constructor
      · intro hh; omega
      · intro hh; omega

/-- C8 witness: the 5-level fixture run end to end: the middle standard
level fails, `NumInterpErrors` strictly increases, and the theorem pins
`NumInterpErrObs` to at most one increment. -/
theorem C8_NumInterpErrObs_witness :
    (anyVectorEmpty witPressures witTObs witTObs [0, 0, 0, 0, 0]
        [0, 0, 0, 0, 0] = false) ∧
    (allVectorsSameSize witPressures witTObs witTObs [0, 0, 0, 0, 0]
        [0, 0, 0, 0, 0] = true) ∧
    (((runCheck witOpts 5 witCls witPressures witTObs witTObs [0, 0, 0, 0, 0]
          [0, 0, 0, 0, 0] (Counters.mk 0 0 0)).counters.NumInterpErrObs =
        (Counters.mk 0 0 0).NumInterpErrObs ∨
      (runCheck witOpts 5 witCls witPressures witTObs witTObs [0, 0, 0, 0, 0]
          [0, 0, 0, 0, 0] (Counters.mk 0 0 0)).counters.NumInterpErrObs =
        (Counters.mk 0 0 0).NumInterpErrObs + 1) ∧
    ((runCheck witOpts 5 witCls witPressures witTObs witTObs [0, 0, 0, 0, 0]
          [0, 0, 0, 0, 0] (Counters.mk 0 0 0)).counters.NumInterpErrObs =
        (Counters.mk 0 0 0).NumInterpErrObs + 1 ↔
      (Counters.mk 0 0 0).NumInterpErrors <
        (runCheck witOpts 5 witCls witPressures witTObs witTObs
          [0, 0, 0, 0, 0] [0, 0, 0, 0, 0]
          (Counters.mk 0 0 0)).counters.NumInterpErrors)) := by
  have h1 : anyVectorEmpty witPressures witTObs witTObs [0, 0, 0, 0, 0]
      [0, 0, 0, 0, 0] = false := rfl
  have h2 : allVectorsSameSize witPressures witTObs witTObs [0, 0, 0, 0, 0]
      [0, 0, 0, 0, 0] = true := rfl
  exact ⟨h1, h2, C8_NumInterpErrObs witOpts 5 witCls witPressures witTObs
    witTObs [0, 0, 0, 0, 0] [0, 0, 0, 0, 0] (Counters.mk 0 0 0) h1 h2⟩

/-! ### Claim C10: flag bits are only ever added -/

theorem getD_orFlagAt_testBit_mono (fl : List ℕ) (k i b : ℕ)
    (h : (fl.getD i 0).testBit b = true) :
    ((orFlagAt fl k).getD i 0).testBit b = true := by
  rcases getD_orFlagAt_cases fl k i with hc | hc <;> rw [hc]
  · exact h
  · rw [Nat.testBit_lor, h, Bool.true_or]

theorem getD_orFlagAt_testBit_new (fl : List ℕ) (k i b : ℕ)
    (h : ((orFlagAt fl k).getD i 0).testBit b = true) :
    (fl.getD i 0).testBit b = true ∨ InterpolationFlag.testBit b = true := by
  rcases getD_orFlagAt_cases fl k i with hc | hc <;> rw [hc] at h
  · exact Or.inl h
  · rw [Nat.testBit_lor, Bool.or_eq_true] at h
    exact h

theorem getD_flagsStep_testBit_mono (opts : ICheckOptions)
    (cls : StdLevelsData) (pressures tObsFinal : List ℚ) (fl : List ℕ)
    (j i b : ℕ) (h : (fl.getD i 0).testBit b = true) :
    ((flagsStep opts cls pressures tObsFinal fl j).getD i 0).testBit b =
      true := by
  unfold flagsStep
  split_ifs
  · exact getD_orFlagAt_testBit_mono _ _ _ _
      (getD_orFlagAt_testBit_mono _ _ _ _
        (getD_orFlagAt_testBit_mono _ _ _ _ h))
  · exact h

theorem getD_flagsStep_testBit_new (opts : ICheckOptions)
    (cls : StdLevelsData) (pressures tObsFinal : List ℚ) (fl : List ℕ)
    (j i b : ℕ)
    (h : ((flagsStep opts cls pressures tObsFinal fl j).getD i 0).testBit b =
      true) :
    (fl.getD i 0).testBit b = true ∨ InterpolationFlag.testBit b = true := by
  by_cases hf : fireP opts cls pressures tObsFinal fl j
  · rw [flagsStep, if_pos hf] at h
    rcases getD_orFlagAt_testBit_new _ _ _ _ h with h' | h'
    · rcases getD_orFlagAt_testBit_new _ _ _ _ h' with h'' | h''
      · exact getD_orFlagAt_testBit_new _ _ _ _ h''
      · exact Or.inr h''
    · exact Or.inr h'
  · rw [flagsStep, if_neg hf] at h
    exact Or.inl h

theorem flagsLoop_testBit_mono (opts : ICheckOptions) (cls : StdLevelsData)
    (pressures tObsFinal : List ℚ) (idxs : List ℕ) :
    ∀ (fl : List ℕ) (i b : ℕ), (fl.getD i 0).testBit b = true →
      ((flagsLoop opts cls pressures tObsFinal fl idxs).getD i 0).testBit b =
        true := by
  induction idxs with
  | nil => intro fl i b h; exact h
  | cons j idxs ih =>
      intro fl i b h
      simp only [flagsLoop, List.foldl_cons]
      rw [← flagsLoop]
      exact ih _ i b (getD_flagsStep_testBit_mono _ _ _ _ _ _ _ _ h)

theorem flagsLoop_testBit_new (opts : ICheckOptions) (cls : StdLevelsData)
    (pressures tObsFinal : List ℚ) (idxs : List ℕ) :
    ∀ (fl : List ℕ) (i b : ℕ),
      ((flagsLoop opts cls pressures tObsFinal fl idxs).getD i 0).testBit b =
        true →
      (fl.getD i 0).testBit b = true ∨ InterpolationFlag.testBit b = true := by
  induction idxs with
  | nil => intro fl i b h; exact Or.inl h
  | cons j idxs ih =>
      intro fl i b h
      simp only [flagsLoop, List.foldl_cons] at h
      rw [← flagsLoop] at h
      rcases ih _ i b h with h' | h'
      · exact getD_flagsStep_testBit_new _ _ _ _ _ _ _ _ h'
      · exact Or.inr h'

theorem flagsLoop_getD_untouched (opts : ICheckOptions) (cls : StdLevelsData)
    (pressures tObsFinal : List ℚ) (fl0 : List ℕ) (i : ℕ) (idxs : List ℕ) :
    ∀ fl : List ℕ,
      (∀ i', fl.getD i' 0 &&& SurfaceLevelFlag =
        fl0.getD i' 0 &&& SurfaceLevelFlag) →
      (∀ j ∈ idxs, fireP opts cls pressures tObsFinal fl0 j →
        i ∉ tripleOf cls j) →
      (flagsLoop opts cls pressures tObsFinal fl idxs).getD i 0 =
        fl.getD i 0 := by
  induction idxs with
  | nil => intro fl _ _; rfl
  | cons j idxs ih =>
      intro fl hsurf hout
      simp only [flagsLoop, List.foldl_cons]
      rw [← flagsLoop]
      by_cases hf : fireP opts cls pressures tObsFinal fl j
      · have hf0 : fireP opts cls pressures tObsFinal fl0 j :=
          (fireP_congr opts cls pressures tObsFinal fl0 fl j (hsurf _)).mp hf
        have hnot : i ∉ tripleOf cls j :=
          hout j (List.mem_cons_self j idxs) hf0
        rw [flagsStep, if_pos hf]
        rw [ih (orTriple cls fl j)
          (fun i' => by rw [getD_orTriple_and_surf]; exact hsurf i')
          (fun k hk => hout k (List.mem_cons_of_mem j hk))]
        exact getD_orTriple_not_mem cls fl j i hnot
      · rw [flagsStep, if_neg hf]
        exact ih fl hsurf (fun k hk => hout k (List.mem_cons_of_mem j hk))

/-- C10: `runCheck` never clears a QC flag bit — every bit of the input
flag word survives at every level; the only bit it ever adds is the
interpolation-failed bit; and at any index that is not the central level or
a bracket of some failing standard level the flag word is bit-for-bit
unchanged (and the vector keeps its length). -/
theorem C10_flags_only_grow (opts : ICheckOptions) (n : ℕ)
    (cls : StdLevelsData) (pressures tObs tBkg : List ℚ) (tFlags : List ℕ)
    (tObsCorrection : List ℚ) (c : Counters)
    (h1 : anyVectorEmpty pressures tObs tBkg tFlags tObsCorrection = false)
    (h2 : allVectorsSameSize pressures tObs tBkg tFlags tObsCorrection =
      true) :
    (runCheck opts n cls pressures tObs tBkg tFlags tObsCorrection
        c).tFlags.length = tFlags.length ∧
    (∀ i b, (tFlags.getD i 0).testBit b = true →
      ((runCheck opts n cls pressures tObs tBkg tFlags tObsCorrection
          c).tFlags.getD i 0).testBit b = true) ∧
    (∀ i b,
      ((runCheck opts n cls pressures tObs tBkg tFlags tObsCorrection
          c).tFlags.getD i 0).testBit b = true →
      (tFlags.getD i 0).testBit b = true ∨
        InterpolationFlag.testBit b = true) ∧
    (∀ i,
      (∀ j, j < cls.NumStd →
        fireP opts cls pressures (correctVector tObs tObsCorrection) tFlags
          j →
        i ∉ tripleOf cls j) →
      (runCheck opts n cls pressures tObs tBkg tFlags tObsCorrection
          c).tFlags.getD i 0 = tFlags.getD i 0) := by
  simp only [runCheck]
  rw [if_neg (by rw [h1]; exact Bool.false_ne_true),
    if_neg (by rw [h2]; exact fun h => h rfl)]
  dsimp only
  rw [loopOver_tFlags]
  dsimp only
  refine ⟨flagsLoop_length _ _ _ _ _ _, ?_, ?_, ?_⟩
  · intro i b h
    exact flagsLoop_testBit_mono _ _ _ _ _ _ i b h
  · intro i b h
    exact flagsLoop_testBit_new _ _ _ _ _ _ i b h
  · intro i hout
    exact flagsLoop_getD_untouched _ _ _ _ _ i _ _ (fun _ => rfl)
      (fun j hj => hout j (List.mem_range.mp hj))

/-- C10 witness: the 5-level fixture run end to end through `runCheck`,
with all validity hypotheses discharged concretely. -/
theorem C10_flags_only_grow_witness :
    (anyVectorEmpty witPressures witTObs witTObs [0, 0, 0, 0, 0]
        [0, 0, 0, 0, 0] = false) ∧
    (allVectorsSameSize witPressures witTObs witTObs [0, 0, 0, 0, 0]
        [0, 0, 0, 0, 0] = true) ∧
    ((runCheck witOpts 5 witCls witPressures witTObs witTObs [0, 0, 0, 0, 0]
        [0, 0, 0, 0, 0] (Counters.mk 0 0 0)).tFlags.length =
      ([0, 0, 0, 0, 0] : List ℕ).length ∧
    (∀ i b, (([0, 0, 0, 0, 0] : List ℕ).getD i 0).testBit b = true →
      ((runCheck witOpts 5 witCls witPressures witTObs witTObs
          [0, 0, 0, 0, 0] [0, 0, 0, 0, 0]
          (Counters.mk 0 0 0)).tFlags.getD i 0).testBit b = true) ∧
    (∀ i b,
      ((runCheck witOpts 5 witCls witPressures witTObs witTObs
          [0, 0, 0, 0, 0] [0, 0, 0, 0, 0]
          (Counters.mk 0 0 0)).tFlags.getD i 0).testBit b = true →
      (([0, 0, 0, 0, 0] : List ℕ).getD i 0).testBit b = true ∨
        InterpolationFlag.testBit b = true) ∧
    (∀ i,
      (∀ j, j < witCls.NumStd →
        fireP witOpts witCls witPressures
          (correctVector witTObs [0, 0, 0, 0, 0]) [0, 0, 0, 0, 0] j →
        i ∉ tripleOf witCls j) →
      (runCheck witOpts 5 witCls witPressures witTObs witTObs [0, 0, 0, 0, 0]
          [0, 0, 0, 0, 0] (Counters.mk 0 0 0)).tFlags.getD i 0 =
        ([0, 0, 0, 0, 0] : List ℕ).getD i 0)) := by
  have h1 : anyVectorEmpty witPressures witTObs witTObs [0, 0, 0, 0, 0]
      [0, 0, 0, 0, 0] = false := rfl
  have h2 : allVectorsSameSize witPressures witTObs witTObs [0, 0, 0, 0, 0]
      [0, 0, 0, 0, 0] = true := rfl
  exact ⟨h1, h2, C10_flags_only_grow witOpts 5 witCls witPressures witTObs
    witTObs [0, 0, 0, 0, 0] [0, 0, 0, 0, 0] (Counters.mk 0 0 0) h1 h2⟩

/-! ### Claim C9: order independence and idempotence -/

/-- The bracket triples of two standard levels share no profile index. -/
def tripleDisjoint (cls : StdLevelsData) (j1 j2 : ℕ) : Prop :=
  ∀ a ∈ tripleOf cls j1, ∀ b ∈ tripleOf cls j2, a ≠ b

instance (cls : StdLevelsData) (j1 j2 : ℕ) :
    Decidable (tripleDisjoint cls j1 j2) := by
  unfold tripleDisjoint; infer_instance

theorem tripleDisjoint.jlev_ne {cls : StdLevelsData} {j1 j2 : ℕ}
    (h : tripleDisjoint cls j1 j2) : jlevOf cls j1 ≠ jlevOf cls j2 :=
  h (jlevOf cls j1) (List.mem_cons_self _ _) (jlevOf cls j2)
    (List.mem_cons_self _ _)

theorem getD_actOn_and_surf (opts : ICheckOptions) (cls : StdLevelsData)
    (pressures tObsFinal : List ℚ) (s : LoopState) (j i : ℕ) :
    (actOn opts cls pressures tObsFinal s j).tFlags.getD i 0 &&&
        SurfaceLevelFlag = s.tFlags.getD i 0 &&& SurfaceLevelFlag := by
  by_cases hf : tolFails opts cls pressures tObsFinal j
  · have h : (actOn opts cls pressures tObsFinal s j).tFlags =
        orTriple cls s.tFlags j := by simp only [actOn, if_pos hf]
    rw [h, getD_orTriple_and_surf]
  · have h : (actOn opts cls pressures tObsFinal s j).tFlags = s.tFlags := by
      simp only [actOn, if_neg hf]
    rw [h]

theorem surfP_actOn (opts : ICheckOptions) (cls : StdLevelsData)
    (pressures tObsFinal : List ℚ) (s : LoopState) (j j' : ℕ) :
    surfP cls (actOn opts cls pressures tObsFinal s j).tFlags j' ↔
      surfP cls s.tFlags j' := by
  unfold surfP
  rw [getD_actOn_and_surf]

theorem surfP_stepLoop (opts : ICheckOptions) (cls : StdLevelsData)
    (pressures tObsFinal : List ℚ) (s : LoopState) (j j' : ℕ) :
    surfP cls (stepLoop opts cls pressures tObsFinal s j).tFlags j' ↔
      surfP cls s.tFlags j' := by
  unfold surfP
  rw [stepLoop_tFlags, getD_flagsStep_and_surf]

theorem actOn_comm (opts : ICheckOptions) (cls : StdLevelsData)
    (pressures tObsFinal : List ℚ) (j1 j2 : ℕ)
    (hne : jlevOf cls j1 ≠ jlevOf cls j2) (s : LoopState) :
    actOn opts cls pressures tObsFinal
        (actOn opts cls pressures tObsFinal s j1) j2 =
      actOn opts cls pressures tObsFinal
        (actOn opts cls pressures tObsFinal s j2) j1 := by
  simp only [actOn, LoopState.mk.injEq]
  refine ⟨?_, by ring, by ring, by ring, ?_, List.set_comm _ _ _ hne⟩
  · split_ifs <;> first | rfl | exact orTriple_comm cls s.tFlags j1 j2
  · split_ifs <;> first | rfl | exact incTriple_comm cls s.LevErrors j1 j2

theorem stepLoop_comm (opts : ICheckOptions) (cls : StdLevelsData)
    (pressures tObsFinal : List ℚ) (j1 j2 : ℕ)
    (hd : evaluable opts cls pressures j1 → evaluable opts cls pressures j2 →
      jlevOf cls j1 ≠ jlevOf cls j2) (s : LoopState) :
    stepLoop opts cls pressures tObsFinal
        (stepLoop opts cls pressures tObsFinal s j1) j2 =
      stepLoop opts cls pressures tObsFinal
        (stepLoop opts cls pressures tObsFinal s j2) j1 := by
  by_cases e1 : evaluable opts cls pressures j1
  case neg =>
    have k1 : ∀ s' : LoopState,
        stepLoop opts cls pressures tObsFinal s' j1 = s' :=
      fun s' => stepLoop_eq_self_of_skip _ _ _ _ s' j1 (not_not.mp e1)
    rw [k1, k1]
  case pos =>
  by_cases e2 : evaluable opts cls pressures j2
  case neg =>
    have k2 : ∀ s' : LoopState,
        stepLoop opts cls pressures tObsFinal s' j2 = s' :=
      fun s' => stepLoop_eq_self_of_skip _ _ _ _ s' j2 (not_not.mp e2)
    rw [k2, k2]
  case pos =>
  by_cases sf1 : surfP cls s.tFlags j1
  · by_cases sf2 : surfP cls s.tFlags j2
    · rw [stepLoop_eq_self_of_surf _ _ _ _ s j1 sf1,
        stepLoop_eq_self_of_surf _ _ _ _ s j2 sf2,
        stepLoop_eq_self_of_surf _ _ _ _ s j1 sf1]
    · rw [stepLoop_eq_self_of_surf _ _ _ _ s j1 sf1,
        stepLoop_eq_self_of_surf _ _ _ _ _ j1
          ((surfP_stepLoop opts cls pressures tObsFinal s j2 j1).mpr sf1)]
  · by_cases sf2 : surfP cls s.tFlags j2
    · rw [stepLoop_eq_self_of_surf _ _ _ _ s j2 sf2,
        stepLoop_eq_self_of_surf _ _ _ _ _ j2
          ((surfP_stepLoop opts cls pressures tObsFinal s j1 j2).mpr sf2)]
    · rw [stepLoop_eq_act _ _ _ _ s j1 sf1 e1,
        stepLoop_eq_act _ _ _ _ s j2 sf2 e2,
        stepLoop_eq_act _ _ _ _ _ j2
          (fun h => sf2
            ((surfP_actOn opts cls pressures tObsFinal s j1 j2).mp h)) e2,
        stepLoop_eq_act _ _ _ _ _ j1
          (fun h => sf1
            ((surfP_actOn opts cls pressures tObsFinal s j2 j1).mp h)) e1]
      exact actOn_comm opts cls pressures tObsFinal j1 j2 (hd e1 e2) s

theorem loopOver_perm (opts : ICheckOptions) (cls : StdLevelsData)
    (pressures tObsFinal : List ℚ) (l₁ l₂ : List ℕ) (hperm : l₁.Perm l₂)
    (hd : ∀ x ∈ l₁, ∀ y ∈ l₁, x ≠ y → evaluable opts cls pressures x →
      evaluable opts cls pressures y → tripleDisjoint cls x y)
    (s : LoopState) :
    loopOver opts cls pressures tObsFinal s l₁ =
      loopOver opts cls pressures tObsFinal s l₂ := by
  refine hperm.foldl_eq' ?_ s
  intro x hx y hy z
  rcases eq_or_ne x y with rfl | hxy
  · rfl
  · exact stepLoop_comm opts cls pressures tObsFinal x y
      (fun e1 e2 => (hd x hx y hy hxy e1 e2).jlev_ne) z

/-- The flags fold with guard conditions frozen at a reference flag vector
applied twice is the same as applied once. -/
theorem fixed_flags_fold_idem (opts : ICheckOptions) (cls : StdLevelsData)
    (pressures tObsFinal : List ℚ) (fl0 : List ℕ) (idxs : List ℕ)
    (g : List ℕ) :
    idxs.foldl
        (fun h j =>
          if fireP opts cls pressures tObsFinal fl0 j then orTriple cls h j
          else h)
        (idxs.foldl
          (fun h j =>
            if fireP opts cls pressures tObsFinal fl0 j then orTriple cls h j
            else h) g) =
      idxs.foldl
        (fun h j =>
          if fireP opts cls pressures tObsFinal fl0 j then orTriple cls h j
          else h) g := by
  refine foldl_upd_idem _ ?_ ?_ idxs g
  · intro x i k
    by_cases ci : fireP opts cls pressures tObsFinal fl0 i <;>
      by_cases ck : fireP opts cls pressures tObsFinal fl0 k <;>
      simp only [if_pos, if_neg, ci, ck, if_true, if_false]
    exact orTriple_comm cls x i k
  · intro x i
    by_cases ci : fireP opts cls pressures tObsFinal fl0 i <;>
      simp only [ci, if_true, if_false]
    exact orTriple_idem cls x i

/-- Running the flags fold a second time (same classifier data and
observations) changes nothing. -/
theorem flagsLoop_idem (opts : ICheckOptions) (cls : StdLevelsData)
    (pressures tObsFinal : List ℚ) (fl0 : List ℕ) (idxs : List ℕ) :
    flagsLoop opts cls pressures tObsFinal
        (flagsLoop opts cls pressures tObsFinal fl0 idxs) idxs =
      flagsLoop opts cls pressures tObsFinal fl0 idxs := by
  have hbase := flagsLoop_eq_fixed opts cls pressures tObsFinal fl0 idxs fl0
    (fun i => rfl)
  have hsecond := flagsLoop_eq_fixed opts cls pressures tObsFinal fl0 idxs
    (flagsLoop opts cls pressures tObsFinal fl0 idxs)
    (fun i => getD_flagsLoop_and_surf opts cls pressures tObsFinal idxs fl0 i)
  rw [hsecond, hbase, fixed_flags_fold_idem]

theorem isEmpty_eq_of_length_eq {α β : Type} (l1 : List α) (l2 : List β)
    (h : l1.length = l2.length) : l1.isEmpty = l2.isEmpty := by
  cases l1 <;> cases l2 <;> simp_all

/-- The flag words a valid `runCheck` invocation returns are the flags fold
of the loop applied to the input flag words. -/
theorem runCheck_tFlags (opts : ICheckOptions) (n : ℕ) (cls : StdLevelsData)
    (pressures tObs tBkg : List ℚ) (fl : List ℕ) (tObsCorrection : List ℚ)
    (c : Counters)
    (h1 : anyVectorEmpty pressures tObs tBkg fl tObsCorrection = false)
    (h2 : allVectorsSameSize pressures tObs tBkg fl tObsCorrection = true) :
    (runCheck opts n cls pressures tObs tBkg fl tObsCorrection c).tFlags =
      flagsLoop opts cls pressures (correctVector tObs tObsCorrection) fl
        (List.range cls.NumStd) := by
  simp only [runCheck]
  rw [if_neg (by rw [h1]; exact Bool.false_ne_true),
    if_neg (by rw [h2]; exact fun h => h rfl)]
  dsimp only
  rw [loopOver_tFlags]

/-- C9: with pairwise disjoint bracket triples among the evaluable standard
levels, (i) the loop may process the standard levels in any order — the
final state (flags, counters, `LevErrors`, `tInterp`) is identical — and
(ii) re-running the whole check on the flags it produced (same inputs
otherwise) leaves the flag words exactly as after the first run: no new
flag bits appear beyond the interpolation-failed bits already set. -/
theorem C9_order_independence_idempotence (opts : ICheckOptions)
    (cls : StdLevelsData) (pressures tObs tBkg : List ℚ) (tFlags : List ℕ)
    (tObsCorrection : List ℚ) (n : ℕ) (c c' : Counters) (l : List ℕ)
    (hperm : (List.range cls.NumStd).Perm l)
    (hd : ∀ x ∈ List.range cls.NumStd, ∀ y ∈ List.range cls.NumStd,
      x ≠ y → evaluable opts cls pressures x →
      evaluable opts cls pressures y → tripleDisjoint cls x y)
    (h1 : anyVectorEmpty pressures tObs tBkg tFlags tObsCorrection = false)
    (h2 : allVectorsSameSize pressures tObs tBkg tFlags tObsCorrection =
      true) :
    (∀ (tObsFinal : List ℚ) (s : LoopState),
      loopOver opts cls pressures tObsFinal s l =
        loopOver opts cls pressures tObsFinal s (List.range cls.NumStd)) ∧
    (runCheck opts n cls pressures tObs tBkg
        (runCheck opts n cls pressures tObs tBkg tFlags tObsCorrection
          c).tFlags
        tObsCorrection c').tFlags =
      (runCheck opts n cls pressures tObs tBkg tFlags tObsCorrection
        c).tFlags := by
  constructor
  · intro tObsFinal s
    exact loopOver_perm opts cls pressures tObsFinal l (List.range cls.NumStd)
      hperm.symm
      (fun x hx y hy hxy e1 e2 =>
        hd x (hperm.symm.mem_iff.mp hx) y (hperm.symm.mem_iff.mp hy) hxy e1 e2)
      s
  · have hflags1 : (runCheck opts n cls pressures tObs tBkg tFlags
        tObsCorrection c).tFlags =
        flagsLoop opts cls pressures (correctVector tObs tObsCorrection)
          tFlags (List.range cls.NumStd) :=
      runCheck_tFlags opts n cls pressures tObs tBkg tFlags tObsCorrection c
        h1 h2
    have hlen : (runCheck opts n cls pressures tObs tBkg tFlags
        tObsCorrection c).tFlags.length = tFlags.length := by
      rw [hflags1, flagsLoop_length]
    have h1' : anyVectorEmpty pressures tObs tBkg
        (runCheck opts n cls pressures tObs tBkg tFlags tObsCorrection
          c).tFlags tObsCorrection = false := by
      simp only [anyVectorEmpty, Bool.or_eq_false_iff] at h1 ⊢
      refine ⟨⟨⟨⟨h1.1.1.1.1, h1.1.1.1.2⟩, h1.1.1.2⟩, ?_⟩, h1.2⟩
      rw [isEmpty_eq_of_length_eq _ tFlags hlen]
      exact h1.1.2
    have h2' : allVectorsSameSize pressures tObs tBkg
        (runCheck opts n cls pressures tObs tBkg tFlags tObsCorrection
          c).tFlags tObsCorrection = true := by
      simp only [allVectorsSameSize, Bool.and_eq_true, decide_eq_true_eq]
        at h2 ⊢
      exact ⟨⟨⟨h2.1.1.1, h2.1.1.2⟩, by rw [hlen]; exact h2.1.2⟩, h2.2⟩
    have hflags2 : (runCheck opts n cls pressures tObs tBkg
        (runCheck opts n cls pressures tObs tBkg tFlags tObsCorrection
          c).tFlags tObsCorrection c').tFlags =
        flagsLoop opts cls pressures (correctVector tObs tObsCorrection)
          (runCheck opts n cls pressures tObs tBkg tFlags tObsCorrection
            c).tFlags (List.range cls.NumStd) :=
      runCheck_tFlags opts n cls pressures tObs tBkg _ tObsCorrection c'
        h1' h2'
    rw [hflags2, hflags1, flagsLoop_idem]

/-- A 9-level classification whose three standard levels (profile indices
1, 4, 7) have pairwise disjoint bracket triples (1,0,2), (4,3,5), (7,6,8). -/
def witCls9 : StdLevelsData :=
  { NumStd := 3
    NumSig := 3
    StdLev := [1, 4, 7]
    SigBelow := [0, 3, 6]
    SigAbove := [2, 5, 8]
    LogP := [9, 8, 7, 6, 5, 4, 3, 2, 1] }

/-- Pressures for the 9-level fixture. -/
def witPressures9 : List ℚ :=
  [90000, 85000, 80000, 75000, 70000, 65000, 60000, 55000, 50000]

/-- Observations for the 9-level fixture. -/
def witTObs9 : List ℚ := [280, 279, 278, 277, 276, 275, 274, 273, 272]

/-- C9 witness: the 9-level fixture processed in the order 2, 0, 1 and
re-run on its own output flags, with every hypothesis discharged
concretely. -/
theorem C9_order_independence_idempotence_witness :
    ((List.range witCls9.NumStd).Perm [2, 0, 1]) ∧
    (∀ x ∈ List.range witCls9.NumStd, ∀ y ∈ List.range witCls9.NumStd,
      x ≠ y → evaluable witOpts witCls9 witPressures9 x →
      evaluable witOpts witCls9 witPressures9 y → tripleDisjoint witCls9 x y) ∧
    (anyVectorEmpty witPressures9 witTObs9 witTObs9 [0, 0, 0, 0, 0, 0, 0, 0, 0]
      [0, 0, 0, 0, 0, 0, 0, 0, 0] = false) ∧
    (allVectorsSameSize witPressures9 witTObs9 witTObs9
      [0, 0, 0, 0, 0, 0, 0, 0, 0] [0, 0, 0, 0, 0, 0, 0, 0, 0] = true) ∧
    ((∀ (tObsFinal : List ℚ) (s : LoopState),
      loopOver witOpts witCls9 witPressures9 tObsFinal s [2, 0, 1] =
        loopOver witOpts witCls9 witPressures9 tObsFinal s
          (List.range witCls9.NumStd)) ∧
    (runCheck witOpts 9 witCls9 witPressures9 witTObs9 witTObs9
        (runCheck witOpts 9 witCls9 witPressures9 witTObs9 witTObs9
          [0, 0, 0, 0, 0, 0, 0, 0, 0] [0, 0, 0, 0, 0, 0, 0, 0, 0]
          (Counters.mk 0 0 0)).tFlags
        [0, 0, 0, 0, 0, 0, 0, 0, 0] (Counters.mk 0 0 0)).tFlags =
      (runCheck witOpts 9 witCls9 witPressures9 witTObs9 witTObs9
        [0, 0, 0, 0, 0, 0, 0, 0, 0] [0, 0, 0, 0, 0, 0, 0, 0, 0]
        (Counters.mk 0 0 0)).tFlags) := by
  have hstrong : ∀ x ∈ List.range witCls9.NumStd,
      ∀ y ∈ List.range witCls9.NumStd, x ≠ y →
      tripleDisjoint witCls9 x y := by decide
  have hperm : (List.range witCls9.NumStd).Perm [2, 0, 1] := by decide
  have hd : ∀ x ∈ List.range witCls9.NumStd,
      ∀ y ∈ List.range witCls9.NumStd, x ≠ y →
      evaluable witOpts witCls9 witPressures9 x →
      evaluable witOpts witCls9 witPressures9 y →
      tripleDisjoint witCls9 x y :=
    fun x hx y hy hxy _ _ => hstrong x hx y hy hxy
  have h1 : anyVectorEmpty witPressures9 witTObs9 witTObs9
      [0, 0, 0, 0, 0, 0, 0, 0, 0] [0, 0, 0, 0, 0, 0, 0, 0, 0] = false := rfl
  have h2 : allVectorsSameSize witPressures9 witTObs9 witTObs9
      [0, 0, 0, 0, 0, 0, 0, 0, 0] [0, 0, 0, 0, 0, 0, 0, 0, 0] = true := rfl
  exact ⟨hperm, hd, h1, h2,
    C9_order_independence_idempotence witOpts witCls9 witPressures9 witTObs9
      witTObs9 [0, 0, 0, 0, 0, 0, 0, 0, 0] [0, 0, 0, 0, 0, 0, 0, 0, 0] 9
      (Counters.mk 0 0 0) (Counters.mk 0 0 0) [2, 0, 1] hperm hd h1 h2⟩

end UfoInterp
